import Mathlib

/-!
Verification of the virtio-pci glue layer of D3OS
(`os/kernel/src/device/virtio.rs`).

The file shallowly embeds the capability scan and the transport builder of
`VirtioPci::new`, plus the device dispatcher `init`.  Machine words (u32
reads from PCI configuration space) are modelled as naturals; every cast the
Rust code performs (`as u16`, `as u8`) appears as an explicit `% 2 ^ w`.
Each vendor-specific capability is modelled by the five 32-bit words the
code may read from it: the header word at the capability address and the
words at sub-offsets +4, +8, +12, +16.
-/

/-- Raw data of one vendor-specific PCI capability: the 32-bit configuration
space words at the capability address and at sub-offsets +4, +8, +12, +16. -/
structure VendorCapData where
  header : Nat
  w4 : Nat
  w8 : Nat
  w12 : Nat
  w16 : Nat
deriving DecidableEq

/-- A PCI capability as seen by the scan loop: either a vendor-specific one
(the only kind the loop inspects) or any other capability (skipped). -/
inductive PciCapability where
  | vendor (v : VendorCapData)
  | other
deriving DecidableEq

/-- The private header: `(capability_header >> 16) as u16`. -/
def privateHeader (w : Nat) : Nat := w / 2 ^ 16 % 2 ^ 16

/-- The decoded capability length: `private_header as u8`. -/
def capLen (w : Nat) : Nat := privateHeader w % 2 ^ 8

/-- The decoded config type: `(private_header >> 8) as u8`. -/
def cfgType (w : Nat) : Nat := privateHeader w / 2 ^ 8 % 2 ^ 8

/-- virtio-pci config type of the common configuration structure. -/
def VIRTIO_PCI_CAP_COMMON_CFG : Nat := 1
/-- virtio-pci config type of the notification structure. -/
def VIRTIO_PCI_CAP_NOTIFY_CFG : Nat := 2
/-- virtio-pci config type of the ISR status structure. -/
def VIRTIO_PCI_CAP_ISR_CFG : Nat := 3
/-- virtio-pci config type of the device-specific configuration structure. -/
def VIRTIO_PCI_CAP_DEVICE_CFG : Nat := 4

/-- Information about a virtio structure within some BAR
(struct `VirtioCapabilityInfo` in the source). -/
structure VirtioCapabilityInfo where
  bar : Nat
  offset : Nat
  length : Nat
deriving DecidableEq

/-- The `struct_info` the loop builds from one vendor capability:
`bar` is the word at +4 cast `as u8`, `offset` the word at +8,
`length` the word at +12. -/
def vInfo (v : VendorCapData) : VirtioCapabilityInfo :=
  { bar := v.w4 % 2 ^ 8, offset := v.w8, length := v.w12 }

/-- The mutable local state of the capability loop in `VirtioPci::new`. -/
structure ScanState where
  common_cfg : Option VirtioCapabilityInfo
  notify_cfg : Option VirtioCapabilityInfo
  notify_off_multiplier : Nat
  isr_cfg : Option VirtioCapabilityInfo
  device_cfg : Option VirtioCapabilityInfo
deriving DecidableEq

/-- Initial loop state: all capability slots `None`, multiplier `0`. -/
def scanInit : ScanState :=
  { common_cfg := none, notify_cfg := none, notify_off_multiplier := 0,
    isr_cfg := none, device_cfg := none }

/-- One iteration of the capability loop body of `VirtioPci::new`:
skip non-vendor capabilities, skip entries with `cap_len < 16`, then match
on `cfg_type` with a first-occurrence-wins guard per slot; the notify arm
additionally requires `cap_len >= 20` and stores the word at +16 as
`notify_off_multiplier`. -/
def scanStep (s : ScanState) (c : PciCapability) : ScanState :=
  match c with
  | .other => s
  | .vendor v =>
    if capLen v.header < 16 then s
    else if cfgType v.header = VIRTIO_PCI_CAP_COMMON_CFG ∧ s.common_cfg = none then
      { s with common_cfg := some (vInfo v) }
    else if cfgType v.header = VIRTIO_PCI_CAP_NOTIFY_CFG ∧ 20 ≤ capLen v.header ∧
        s.notify_cfg = none then
      { s with notify_cfg := some (vInfo v), notify_off_multiplier := v.w16 }
    else if cfgType v.header = VIRTIO_PCI_CAP_ISR_CFG ∧ s.isr_cfg = none then
      { s with isr_cfg := some (vInfo v) }
    else if cfgType v.header = VIRTIO_PCI_CAP_DEVICE_CFG ∧ s.device_cfg = none then
      { s with device_cfg := some (vInfo v) }
    else s

/-- The whole capability walk of `VirtioPci::new`. -/
def scan (caps : List PciCapability) : ScanState := caps.foldl scanStep scanInit

/-- A resolved base address register region (`pci_types::Bar`, kept
abstract: a base address and a size). -/
structure Bar where
  base : Nat
  size : Nat
deriving DecidableEq

/-- The error variants of `virtio_drivers::transport::pci::VirtioPciError`
that `VirtioPci::new` can produce. -/
inductive VirtioPciError where
  | MissingCommonConfig
  | MissingNotifyConfig
  | MissingIsrConfig
  | BarOffsetOutOfRange
  | InvalidNotifyOffMultiplier (m : Nat)
deriving DecidableEq

/-- The virtio device types relevant to the dispatcher. -/
inductive DeviceType where
  | Block
  | Network
  | Unknown
deriving DecidableEq

/-- The transport built by `VirtioPci::new` (struct `VirtioPci`). -/
structure VirtioPci where
  device_type : DeviceType
  common_cfg : Bar
  notify_region : Bar
  notify_off_multiplier : Nat
  isr_status : Bar
  config_space : Option Bar
deriving DecidableEq

/-- The validation part of `VirtioPci::new` after the capability loop.
`resolveBar` models `device.bar(index, config_space)`.  Mirrors the source
order exactly: resolve the common capability (`MissingCommonConfig` when
absent, `BarOffsetOutOfRange` when its BAR does not resolve), reject an odd
`notify_off_multiplier`, resolve notify (`MissingNotifyConfig` both when
absent and when its BAR does not resolve), resolve isr (`MissingIsrConfig`
both ways), and finally the optional device capability
(`BarOffsetOutOfRange` when present but unresolvable). -/
def build (device_type : DeviceType) (s : ScanState) (resolveBar : Nat → Option Bar) :
    Except VirtioPciError VirtioPci :=
  match s.common_cfg with
  | none => .error .MissingCommonConfig
  | some common =>
    match resolveBar common.bar with
    | none => .error .BarOffsetOutOfRange
    | some common_cfg_bar =>
      if s.notify_off_multiplier % 2 ≠ 0 then
        .error (.InvalidNotifyOffMultiplier s.notify_off_multiplier)
      else
        match s.notify_cfg with
        | none => .error .MissingNotifyConfig
        | some ncfg =>
          match resolveBar ncfg.bar with
          | none => .error .MissingNotifyConfig
          | some notify_region =>
            match s.isr_cfg with
            | none => .error .MissingIsrConfig
            | some icfg =>
              match resolveBar icfg.bar with
              | none => .error .MissingIsrConfig
              | some isr_status =>
                match s.device_cfg with
                | none =>
                  .ok { device_type := device_type, common_cfg := common_cfg_bar,
                        notify_region := notify_region,
                        notify_off_multiplier := s.notify_off_multiplier,
                        isr_status := isr_status, config_space := none }
                | some dcfg =>
                  match resolveBar dcfg.bar with
                  | none => .error .BarOffsetOutOfRange
                  | some dbar =>
                    .ok { device_type := device_type, common_cfg := common_cfg_bar,
                          notify_region := notify_region,
                          notify_off_multiplier := s.notify_off_multiplier,
                          isr_status := isr_status, config_space := some dbar }

/-- The whole of `VirtioPci::new`: run the capability walk, then validate and assemble. -/
def VirtioPci.new (device_type : DeviceType) (caps : List PciCapability)
    (resolveBar : Nat → Option Bar) : Except VirtioPciError VirtioPci :=
  build device_type (scan caps) resolveBar

/-- One device as the dispatcher sees it: the result of
`virtio_device_type` classification, its capability list and its BAR
resolution function. -/
structure ScannedDevice where
  typ : Option DeviceType
  caps : List PciCapability
  resolveBar : Nat → Option Bar

/-- The device dispatcher `init`.  For each device: unclassified devices
are logged and skipped; for a classified device the transport is built with
`VirtioPci::new(..).expect(..)` — the `expect` panics on error, which the
embedding models as `Except.error` aborting the remaining walk.  Failures
of the subsequent device-class driver construction (`VirtIOBlk::new`) are
logged and ignored, so a built transport always lets the walk continue. -/
def init (devices : List ScannedDevice) : Except VirtioPciError Unit :=
  match devices with
  | [] => .ok ()
  | d :: rest =>
    match d.typ with
    | none => init rest
    | some t =>
      match VirtioPci.new t d.caps d.resolveBar with
      | .error e => .error e
      | .ok _ => init rest

/-- The `struct_info` a capability would yield (junk for non-vendor ones,
which no accept predicate lets through). -/
def capInfo : PciCapability → VirtioCapabilityInfo
  | .vendor v => vInfo v
  | .other => { bar := 0, offset := 0, length := 0 }

/-- The +16 word of a capability (the notify multiplier candidate). -/
def capMult : PciCapability → Nat
  | .vendor v => v.w16
  | .other => 0

/-- Entries the loop accepts into the common slot when it is empty. -/
def acceptsCommon : PciCapability → Bool
  | .vendor v =>
    decide (16 ≤ capLen v.header) && decide (cfgType v.header = VIRTIO_PCI_CAP_COMMON_CFG)
  | .other => false

/-- Entries the loop accepts into the notify slot when it is empty
(note the stricter `20 ≤ cap_len`). -/
def acceptsNotify : PciCapability → Bool
  | .vendor v =>
    decide (20 ≤ capLen v.header) && decide (cfgType v.header = VIRTIO_PCI_CAP_NOTIFY_CFG)
  | .other => false

/-- Entries the loop accepts into the isr slot when it is empty. -/
def acceptsIsr : PciCapability → Bool
  | .vendor v =>
    decide (16 ≤ capLen v.header) && decide (cfgType v.header = VIRTIO_PCI_CAP_ISR_CFG)
  | .other => false

/-- Entries the loop accepts into the device slot when it is empty. -/
def acceptsDevice : PciCapability → Bool
  | .vendor v =>
    decide (16 ≤ capLen v.header) && decide (cfgType v.header = VIRTIO_PCI_CAP_DEVICE_CFG)
  | .other => false

lemma scanStep_common (s : ScanState) (c : PciCapability) :
    (scanStep s c).common_cfg =
      match s.common_cfg with
      | some x => some x
      | none => if acceptsCommon c then some (capInfo c) else none := by
  cases c with
  | other =>
    simp only [scanStep]
    cases hsc : s.common_cfg <;> simp [hsc, acceptsCommon]
  | vendor v =>
    cases hsc : s.common_cfg <;>
      simp only [scanStep, hsc, acceptsCommon, capInfo, Bool.and_eq_true, decide_eq_true_eq,
        VIRTIO_PCI_CAP_COMMON_CFG, VIRTIO_PCI_CAP_NOTIFY_CFG, VIRTIO_PCI_CAP_ISR_CFG,
        VIRTIO_PCI_CAP_DEVICE_CFG] <;>
      split_ifs <;> (try simp_all) <;> omega

lemma scanStep_isr (s : ScanState) (c : PciCapability) :
    (scanStep s c).isr_cfg =
      match s.isr_cfg with
      | some x => some x
      | none => if acceptsIsr c then some (capInfo c) else none := by
  cases c with
  | other =>
    simp only [scanStep]
    cases hsc : s.isr_cfg <;> simp [hsc, acceptsIsr]
  | vendor v =>
    cases hsc : s.isr_cfg <;>
      simp only [scanStep, hsc, acceptsIsr, capInfo, Bool.and_eq_true, decide_eq_true_eq,
        VIRTIO_PCI_CAP_COMMON_CFG, VIRTIO_PCI_CAP_NOTIFY_CFG, VIRTIO_PCI_CAP_ISR_CFG,
        VIRTIO_PCI_CAP_DEVICE_CFG] <;>
      split_ifs <;> (try simp_all) <;> omega

lemma scanStep_device (s : ScanState) (c : PciCapability) :
    (scanStep s c).device_cfg =
      match s.device_cfg with
      | some x => some x
      | none => if acceptsDevice c then some (capInfo c) else none := by
  cases c with
  | other =>
    simp only [scanStep]
    cases hsc : s.device_cfg <;> simp [hsc, acceptsDevice]
  | vendor v =>
    cases hsc : s.device_cfg <;>
      simp only [scanStep, hsc, acceptsDevice, capInfo, Bool.and_eq_true, decide_eq_true_eq,
        VIRTIO_PCI_CAP_COMMON_CFG, VIRTIO_PCI_CAP_NOTIFY_CFG, VIRTIO_PCI_CAP_ISR_CFG,
        VIRTIO_PCI_CAP_DEVICE_CFG] <;>
      split_ifs <;> (try simp_all) <;> omega

lemma scanStep_notify (s : ScanState) (c : PciCapability) :
    (scanStep s c).notify_cfg =
      (match s.notify_cfg with
      | some x => some x
      | none => if acceptsNotify c then some (capInfo c) else none) ∧
    (scanStep s c).notify_off_multiplier =
      (match s.notify_cfg with
      | some _ => s.notify_off_multiplier
      | none => if acceptsNotify c then capMult c else s.notify_off_multiplier) := by
  cases c with
  | other =>
    simp only [scanStep]
    cases hsc : s.notify_cfg <;> simp [hsc, acceptsNotify]
  | vendor v =>
    cases hsc : s.notify_cfg <;>
      simp only [scanStep, hsc, acceptsNotify, capInfo, capMult, Bool.and_eq_true,
        decide_eq_true_eq, VIRTIO_PCI_CAP_COMMON_CFG, VIRTIO_PCI_CAP_NOTIFY_CFG,
        VIRTIO_PCI_CAP_ISR_CFG, VIRTIO_PCI_CAP_DEVICE_CFG] <;>
      constructor <;> (split_ifs <;> (try simp_all) <;> omega)

lemma scan_go_common (caps : List PciCapability) (s : ScanState) :
    (caps.foldl scanStep s).common_cfg =
      match s.common_cfg with
      | some x => some x
      | none => (caps.find? acceptsCommon).map capInfo := by
  induction caps generalizing s with
  | nil => cases hsc : s.common_cfg <;> simp [hsc]
  | cons c tl ih =>
    rw [List.foldl_cons, ih, scanStep_common]
    cases hsc : s.common_cfg with
    | some x => simp
    | none =>
      by_cases hac : acceptsCommon c
      · simp [hac, List.find?_cons_of_pos]
      · simp [hac, List.find?_cons_of_neg]

lemma scan_go_isr (caps : List PciCapability) (s : ScanState) :
    (caps.foldl scanStep s).isr_cfg =
      match s.isr_cfg with
      | some x => some x
      | none => (caps.find? acceptsIsr).map capInfo := by
  induction caps generalizing s with
  | nil => cases hsc : s.isr_cfg <;> simp [hsc]
  | cons c tl ih =>
    rw [List.foldl_cons, ih, scanStep_isr]
    cases hsc : s.isr_cfg with
    | some x => simp
    | none =>
      by_cases hac : acceptsIsr c
      · simp [hac, List.find?_cons_of_pos]
      · simp [hac, List.find?_cons_of_neg]

lemma scan_go_device (caps : List PciCapability) (s : ScanState) :
    (caps.foldl scanStep s).device_cfg =
      match s.device_cfg with
      | some x => some x
      | none => (caps.find? acceptsDevice).map capInfo := by
  induction caps generalizing s with
  | nil => cases hsc : s.device_cfg <;> simp [hsc]
  | cons c tl ih =>
    rw [List.foldl_cons, ih, scanStep_device]
    cases hsc : s.device_cfg with
    | some x => simp
    | none =>
      by_cases hac : acceptsDevice c
      · simp [hac, List.find?_cons_of_pos]
      · simp [hac, List.find?_cons_of_neg]

lemma scan_go_notify (caps : List PciCapability) (s : ScanState) :
    (caps.foldl scanStep s).notify_cfg =
      (match s.notify_cfg with
      | some x => some x
      | none => (caps.find? acceptsNotify).map capInfo) ∧
    (caps.foldl scanStep s).notify_off_multiplier =
      (match s.notify_cfg with
      | some _ => s.notify_off_multiplier
      | none =>
        match caps.find? acceptsNotify with
        | some c => capMult c
        | none => s.notify_off_multiplier) := by
  induction caps generalizing s with
  | nil => cases hsc : s.notify_cfg <;> simp [hsc]
  | cons c tl ih =>
    obtain ⟨h1, h2⟩ := scanStep_notify s c
    obtain ⟨ih1, ih2⟩ := ih (scanStep s c)
    rw [List.foldl_cons, ih1, ih2, h1, h2]
    cases hsc : s.notify_cfg with
    | some x => simp
    | none =>
      by_cases hac : acceptsNotify c
      · simp [hac, List.find?_cons_of_pos]
      · simp [hac, List.find?_cons_of_neg]

lemma scan_common_eq (caps : List PciCapability) :
    (scan caps).common_cfg = (caps.find? acceptsCommon).map capInfo := by
  rw [scan]
  exact scan_go_common caps scanInit

lemma scan_isr_eq (caps : List PciCapability) :
    (scan caps).isr_cfg = (caps.find? acceptsIsr).map capInfo := by
  rw [scan]
  exact scan_go_isr caps scanInit

lemma scan_device_eq (caps : List PciCapability) :
    (scan caps).device_cfg = (caps.find? acceptsDevice).map capInfo := by
  rw [scan]
  exact scan_go_device caps scanInit

lemma scan_notify_eq (caps : List PciCapability) :
    (scan caps).notify_cfg = (caps.find? acceptsNotify).map capInfo := by
  rw [scan]
  exact (scan_go_notify caps scanInit).1

lemma scan_mult_eq (caps : List PciCapability) :
    (scan caps).notify_off_multiplier =
      match caps.find? acceptsNotify with
      | some c => capMult c
      | none => 0 := by
  rw [scan]
  exact (scan_go_notify caps scanInit).2

/-- Claim C6: for any capability list, each of the four slots of the scan
result holds exactly the first accepted entry of its config type (so a list
with exactly one well-formed entry per type populates all four slots with
that entry's `bar`, `offset`, `length` — and, for notify, the +16 word as
multiplier — while later duplicates of a type are ignored without error). -/
theorem c6_scan_first_seen (caps : List PciCapability) :
    (scan caps).common_cfg = (caps.find? acceptsCommon).map capInfo ∧
    (scan caps).notify_cfg = (caps.find? acceptsNotify).map capInfo ∧
    (scan caps).isr_cfg = (caps.find? acceptsIsr).map capInfo ∧
    (scan caps).device_cfg = (caps.find? acceptsDevice).map capInfo ∧
    (scan caps).notify_off_multiplier =
      (match caps.find? acceptsNotify with
      | some c => capMult c
      | none => 0) :=
  ⟨scan_common_eq caps, scan_notify_eq caps, scan_isr_eq caps,
    scan_device_eq caps, scan_mult_eq caps⟩

/-- Claim C7: a vendor capability whose decoded `cap_len` is below 16
leaves the loop state completely unchanged: no slot and no field, the
multiplier included, is populated from it. -/
theorem c7_short_cap_ignored (s : ScanState) (v : VendorCapData)
    (h : capLen v.header < 16) :
    scanStep s (PciCapability.vendor v) = s := by
  simp [scanStep, h]

/-- Witness for C7 at a concrete short entry. -/
theorem c7_witness :
    capLen 0 < 16 ∧ scanStep scanInit (PciCapability.vendor ⟨0, 1, 2, 3, 4⟩) = scanInit :=
  ⟨by decide, c7_short_cap_ignored scanInit ⟨0, 1, 2, 3, 4⟩ (by decide)⟩

/-- Counterexample to claim C8: at the header word 1048576 (bit 20 set) the
implemented decoding gives `cap_len = 16`, but the low 16 bits of that word
are 0 and its bits 16..24 are 16 — so `cap_len` is not the word's low 16
bits, and `cfg_type` (0 here) is not the next 8 bits after them. -/
theorem c8_counterexample :
    capLen 1048576 = 16 ∧ cfgType 1048576 = 0 ∧
    1048576 % 2 ^ 16 = 0 ∧ 1048576 / 2 ^ 16 % 2 ^ 8 = 16 ∧
    capLen 1048576 ≠ 1048576 % 2 ^ 16 ∧
    cfgType 1048576 ≠ 1048576 / 2 ^ 16 % 2 ^ 8 := by decide

/-- Claim C8 as amended: the scanner takes the private header to be the
upper 16 bits of the 32-bit word read at the capability address; `cap_len`
is its low byte (bits 16..24 of the word) and `cfg_type` its next byte
(bits 24..32), matching the section 4.1 wording. -/
theorem c8_header_decoding (w : Nat) :
    capLen w = w / 2 ^ 16 % 2 ^ 8 ∧ cfgType w = w / 2 ^ 24 % 2 ^ 8 := by
  have h24 : w / 2 ^ 24 = w / 2 ^ 16 / 2 ^ 8 := by
    rw [Nat.div_div_eq_div_mul]
    norm_num
  unfold capLen cfgType privateHeader
  rw [h24]
  constructor <;>
    simp only [show (2 : Nat) ^ 16 = 65536 from rfl, show (2 : Nat) ^ 8 = 256 from rfl] <;>
    omega

/-- Claim C10: when the walk records no notify capability the multiplier
keeps its initial value 0, the evenness check passes, and `VirtioPci::new`
fails with `MissingNotifyConfig` or one of the two errors raised earlier
(`MissingCommonConfig`, `BarOffsetOutOfRange`), never with
`InvalidNotifyOffMultiplier`. -/
theorem c10_no_notify_multiplier_zero (t : DeviceType) (caps : List PciCapability)
    (r : Nat → Option Bar) (h : (scan caps).notify_cfg = none) :
    (scan caps).notify_off_multiplier = 0 ∧
    ∃ e, VirtioPci.new t caps r = Except.error e ∧
      (e = VirtioPciError.MissingCommonConfig ∨ e = VirtioPciError.BarOffsetOutOfRange ∨
        e = VirtioPciError.MissingNotifyConfig) := by
  have hsn := scan_notify_eq caps
  rw [h] at hsn
  have hf : caps.find? acceptsNotify = none := by
    cases hx : caps.find? acceptsNotify with
    | none => rfl
    | some a => rw [hx] at hsn; simp at hsn
  have hm : (scan caps).notify_off_multiplier = 0 := by rw [scan_mult_eq, hf]
  refine ⟨hm, ?_⟩
  unfold VirtioPci.new build
  cases hc : (scan caps).common_cfg with
  | none => exact ⟨VirtioPciError.MissingCommonConfig, by simp [hc], Or.inl rfl⟩
  | some c =>
    cases hrc : r c.bar with
    | none => exact ⟨VirtioPciError.BarOffsetOutOfRange, by simp [hc, hrc], Or.inr (Or.inl rfl)⟩
    | some cb =>
      refine ⟨VirtioPciError.MissingNotifyConfig, ?_, Or.inr (Or.inr rfl)⟩
      simp [hc, hrc, hm, h]

/-- Witness for C10 on the empty capability list. -/
theorem c10_witness :
    (scan []).notify_cfg = none ∧
    ((scan []).notify_off_multiplier = 0 ∧
      ∃ e, VirtioPci.new DeviceType.Block [] (fun i => none) = Except.error e ∧
        (e = VirtioPciError.MissingCommonConfig ∨ e = VirtioPciError.BarOffsetOutOfRange ∨
          e = VirtioPciError.MissingNotifyConfig)) :=
  ⟨rfl, c10_no_notify_multiplier_zero DeviceType.Block [] (fun i => none) rfl⟩

/-- A classified device whose capability list is empty, so the Transport
Builder fails with `MissingCommonConfig`. -/
def deviceNoCommon : ScannedDevice :=
  { typ := some DeviceType.Block, caps := [], resolveBar := fun _ => none }

/-- A device `virtio_device_type` does not classify (logged and skipped). -/
def deviceUnclassified : ScannedDevice :=
  { typ := none, caps := [], resolveBar := fun _ => none }

/-- Counterexample to claim C1: on a bus holding a classified device whose
transport construction fails followed by another device, `init` does not
log and continue: the `expect` on `VirtioPci::new` panics (modelled as the
`Except.error` outcome), so the walk aborts before reaching the second
device. -/
theorem c1_counterexample :
    init [deviceNoCommon, deviceUnclassified] =
      Except.error VirtioPciError.MissingCommonConfig := rfl

/-- Claim C1 as amended: when `VirtioPci::new` fails for a classified
device, `init` panics via `expect` with that error and the remaining
devices are not scanned (only device-class driver failures and
unclassified devices are logged and skipped). -/
theorem c1_init_panics_on_transport_failure (d : ScannedDevice)
    (rest : List ScannedDevice) (t : DeviceType) (e : VirtioPciError)
    (ht : d.typ = some t) (he : VirtioPci.new t d.caps d.resolveBar = Except.error e) :
    init (d :: rest) = Except.error e := by
  simp [init, ht, he]

/-- Witness for the amended C1 at the concrete failing device. -/
theorem c1_witness :
    deviceNoCommon.typ = some DeviceType.Block ∧
    VirtioPci.new DeviceType.Block deviceNoCommon.caps deviceNoCommon.resolveBar =
      Except.error VirtioPciError.MissingCommonConfig ∧
    init [deviceNoCommon, deviceUnclassified] =
      Except.error VirtioPciError.MissingCommonConfig :=
  ⟨rfl, rfl, c1_init_panics_on_transport_failure deviceNoCommon [deviceUnclassified]
    DeviceType.Block VirtioPciError.MissingCommonConfig rfl rfl⟩

/-- Counterexample to claim C2: a vendor entry with `cfg_type = Notify` and
`cap_len = 16` (header word 34603008 = 0x02100000) is not recorded at all —
the notify slot stays empty, nothing is populated. -/
theorem c2_counterexample :
    capLen 34603008 = 16 ∧ cfgType 34603008 = VIRTIO_PCI_CAP_NOTIFY_CFG ∧
    (scan [PciCapability.vendor ⟨34603008, 3, 7, 9, 5⟩]).notify_cfg = none ∧
    (scan [PciCapability.vendor ⟨34603008, 3, 7, 9, 5⟩]).notify_off_multiplier = 0 := by
  decide

/-- Claim C2 as amended: `cap_len >= 20` gates acceptance of the notify
entry itself, not merely the multiplier read — a notify entry with
`cap_len < 20` (in particular 16..19) leaves the loop state unchanged. -/
theorem c2_short_notify_ignored (s : ScanState) (v : VendorCapData)
    (hc : cfgType v.header = VIRTIO_PCI_CAP_NOTIFY_CFG) (hl : capLen v.header < 20) :
    scanStep s (PciCapability.vendor v) = s := by
  unfold scanStep
  dsimp only
  split_ifs <;>
    (try simp_all [VIRTIO_PCI_CAP_COMMON_CFG, VIRTIO_PCI_CAP_NOTIFY_CFG,
      VIRTIO_PCI_CAP_ISR_CFG, VIRTIO_PCI_CAP_DEVICE_CFG]) <;> omega

/-- Witness for the amended C2 at the concrete short notify entry. -/
theorem c2_witness :
    cfgType 34603008 = VIRTIO_PCI_CAP_NOTIFY_CFG ∧ capLen 34603008 < 20 ∧
    scanStep scanInit (PciCapability.vendor ⟨34603008, 3, 7, 9, 5⟩) = scanInit :=
  ⟨by decide, by decide,
    c2_short_notify_ignored scanInit ⟨34603008, 3, 7, 9, 5⟩ (by decide) (by decide)⟩

/-- Three well-formed capabilities: common at BAR 0 (header 0x01100000),
notify at BAR 1 with `cap_len = 20` and even multiplier (header
0x02140000), isr at BAR 0 (header 0x03100000). -/
def capsThree : List PciCapability :=
  [PciCapability.vendor ⟨17825792, 0, 0, 64, 0⟩,
    PciCapability.vendor ⟨34865152, 1, 0, 32, 0⟩,
    PciCapability.vendor ⟨51380224, 0, 0, 32, 0⟩]

/-- A BAR resolver that only resolves BAR index 0. -/
def resolveOnlyBarZero : Nat → Option Bar :=
  fun i => if i = 0 then some { base := 4096, size := 4096 } else none

/-- Counterexample to claim C3: the notify capability references BAR 1,
which resolves to no region, yet `VirtioPci::new` fails with
`MissingNotifyConfig`, not `BarOffsetOutOfRange`. -/
theorem c3_counterexample :
    (scan capsThree).notify_cfg = some { bar := 1, offset := 0, length := 32 } ∧
    VirtioPci.new DeviceType.Block capsThree resolveOnlyBarZero =
      Except.error VirtioPciError.MissingNotifyConfig ∧
    VirtioPciError.MissingNotifyConfig ≠ VirtioPciError.BarOffsetOutOfRange := by
  refine ⟨by decide, rfl, by decide⟩

/-- Claim C3 as amended: an unresolvable BAR yields `BarOffsetOutOfRange`
only for the common and device capabilities; for the notify capability it
yields `MissingNotifyConfig` and for the isr capability `MissingIsrConfig`
(each condition taken at its place in the source's check order). -/
theorem c3_bar_resolution_errors :
    (∀ (t : DeviceType) (s : ScanState) (r : Nat → Option Bar)
      (c : VirtioCapabilityInfo), s.common_cfg = some c → r c.bar = none →
      build t s r = Except.error VirtioPciError.BarOffsetOutOfRange) ∧
    (∀ (t : DeviceType) (s : ScanState) (r : Nat → Option Bar)
      (c n : VirtioCapabilityInfo) (cb : Bar), s.common_cfg = some c →
      r c.bar = some cb → s.notify_off_multiplier % 2 = 0 →
      s.notify_cfg = some n → r n.bar = none →
      build t s r = Except.error VirtioPciError.MissingNotifyConfig) ∧
    (∀ (t : DeviceType) (s : ScanState) (r : Nat → Option Bar)
      (c n i : VirtioCapabilityInfo) (cb nb : Bar), s.common_cfg = some c →
      r c.bar = some cb → s.notify_off_multiplier % 2 = 0 →
      s.notify_cfg = some n → r n.bar = some nb →
      s.isr_cfg = some i → r i.bar = none →
      build t s r = Except.error VirtioPciError.MissingIsrConfig) ∧
    (∀ (t : DeviceType) (s : ScanState) (r : Nat → Option Bar)
      (c n i d : VirtioCapabilityInfo) (cb nb ib : Bar), s.common_cfg = some c →
      r c.bar = some cb → s.notify_off_multiplier % 2 = 0 →
      s.notify_cfg = some n → r n.bar = some nb →
      s.isr_cfg = some i → r i.bar = some ib →
      s.device_cfg = some d → r d.bar = none →
      build t s r = Except.error VirtioPciError.BarOffsetOutOfRange) := by
  refine ⟨?_, ?_, ?_, ?_⟩
  · intro t s r c hc hrc
    simp [build, hc, hrc]
  · intro t s r c n cb hc hrc hm hn hrn
    simp [build, hc, hrc, hm, hn, hrn]
  · intro t s r c n i cb nb hc hrc hm hn hrn hi hri
    simp [build, hc, hrc, hm, hn, hrn, hi, hri]
  · intro t s r c n i d cb nb ib hc hrc hm hn hrn hi hri hd hrd
    simp [build, hc, hrc, hm, hn, hrn, hi, hri, hd, hrd]

/-- Scan state with only a common capability referencing BAR 5. -/
def stCommonBarFive : ScanState :=
  { common_cfg := some { bar := 5, offset := 0, length := 64 }, notify_cfg := none,
    notify_off_multiplier := 0, isr_cfg := none, device_cfg := none }

/-- Scan state with common at BAR 0 and notify at BAR 1. -/
def stNotifyBarOne : ScanState :=
  { common_cfg := some { bar := 0, offset := 0, length := 64 },
    notify_cfg := some { bar := 1, offset := 0, length := 32 },
    notify_off_multiplier := 0, isr_cfg := none, device_cfg := none }

/-- Scan state with common and notify at BAR 0 and isr at BAR 1. -/
def stIsrBarOne : ScanState :=
  { common_cfg := some { bar := 0, offset := 0, length := 64 },
    notify_cfg := some { bar := 0, offset := 0, length := 32 },
    notify_off_multiplier := 0, isr_cfg := some { bar := 1, offset := 0, length := 32 },
    device_cfg := none }

/-- Scan state with common, notify and isr at BAR 0, device at BAR 1. -/
def stDeviceBarOne : ScanState :=
  { common_cfg := some { bar := 0, offset := 0, length := 64 },
    notify_cfg := some { bar := 0, offset := 0, length := 32 },
    notify_off_multiplier := 0, isr_cfg := some { bar := 0, offset := 0, length := 32 },
    device_cfg := some { bar := 1, offset := 0, length := 256 } }

/-- Witness for the amended C3: all four error mappings at concrete
states under the resolver that only knows BAR 0. -/
theorem c3_witness :
    (stCommonBarFive.common_cfg = some { bar := 5, offset := 0, length := 64 } ∧
      resolveOnlyBarZero 5 = none ∧
      build DeviceType.Block stCommonBarFive resolveOnlyBarZero =
        Except.error VirtioPciError.BarOffsetOutOfRange) ∧
    (resolveOnlyBarZero 1 = none ∧
      build DeviceType.Block stNotifyBarOne resolveOnlyBarZero =
        Except.error VirtioPciError.MissingNotifyConfig) ∧
    (build DeviceType.Block stIsrBarOne resolveOnlyBarZero =
      Except.error VirtioPciError.MissingIsrConfig) ∧
    (build DeviceType.Block stDeviceBarOne resolveOnlyBarZero =
      Except.error VirtioPciError.BarOffsetOutOfRange) :=
  ⟨⟨rfl, rfl, c3_bar_resolution_errors.1 DeviceType.Block stCommonBarFive resolveOnlyBarZero
      { bar := 5, offset := 0, length := 64 } rfl rfl⟩,
    ⟨rfl, c3_bar_resolution_errors.2.1 DeviceType.Block stNotifyBarOne resolveOnlyBarZero
      { bar := 0, offset := 0, length := 64 } { bar := 1, offset := 0, length := 32 }
      { base := 4096, size := 4096 } rfl rfl rfl rfl rfl⟩,
    c3_bar_resolution_errors.2.2.1 DeviceType.Block stIsrBarOne resolveOnlyBarZero
      { bar := 0, offset := 0, length := 64 } { bar := 0, offset := 0, length := 32 }
      { bar := 1, offset := 0, length := 32 } { base := 4096, size := 4096 }
      { base := 4096, size := 4096 } rfl rfl rfl rfl rfl rfl rfl,
    c3_bar_resolution_errors.2.2.2 DeviceType.Block stDeviceBarOne resolveOnlyBarZero
      { bar := 0, offset := 0, length := 64 } { bar := 0, offset := 0, length := 32 }
      { bar := 0, offset := 0, length := 32 } { bar := 1, offset := 0, length := 256 }
      { base := 4096, size := 4096 } { base := 4096, size := 4096 }
      { base := 4096, size := 4096 } rfl rfl rfl rfl rfl rfl rfl rfl rfl⟩

/-- A single notify capability (header 0x02140000, `cap_len = 20`) whose
multiplier word at +16 is the odd value 1; no common capability. -/
def capsOddNotifyOnly : List PciCapability :=
  [PciCapability.vendor ⟨34865152, 0, 0, 32, 1⟩]

/-- Counterexample to claim C4: the recorded multiplier is odd (1), yet
because the common-config capability is missing, `VirtioPci::new` returns
`MissingCommonConfig` — the odd multiplier does not yield
`InvalidNotifyOffMultiplier` regardless of the other capabilities. -/
theorem c4_counterexample :
    (scan capsOddNotifyOnly).notify_off_multiplier = 1 ∧
    VirtioPci.new DeviceType.Block capsOddNotifyOnly resolveOnlyBarZero =
      Except.error VirtioPciError.MissingCommonConfig ∧
    VirtioPciError.MissingCommonConfig ≠ VirtioPciError.InvalidNotifyOffMultiplier 1 := by
  refine ⟨by decide, rfl, by decide⟩

/-- Claim C4 as amended: once the common-config capability is present and
its BAR resolves, an odd recorded multiplier always yields
`InvalidNotifyOffMultiplier`, whatever the notify, isr and device
capabilities look like (the check precedes their validation). -/
theorem c4_odd_multiplier_after_common (t : DeviceType) (s : ScanState)
    (r : Nat → Option Bar) (c : VirtioCapabilityInfo) (cb : Bar)
    (hc : s.common_cfg = some c) (hr : r c.bar = some cb)
    (hm : s.notify_off_multiplier % 2 = 1) :
    build t s r =
      Except.error (VirtioPciError.InvalidNotifyOffMultiplier s.notify_off_multiplier) := by
  simp [build, hc, hr, hm]

/-- Scan state with a resolvable common capability and odd multiplier. -/
def stOddMultiplier : ScanState :=
  { common_cfg := some { bar := 0, offset := 0, length := 64 }, notify_cfg := none,
    notify_off_multiplier := 1, isr_cfg := none, device_cfg := none }

/-- Witness for the amended C4 at a concrete state. -/
theorem c4_witness :
    stOddMultiplier.common_cfg = some { bar := 0, offset := 0, length := 64 } ∧
    resolveOnlyBarZero 0 = some { base := 4096, size := 4096 } ∧
    stOddMultiplier.notify_off_multiplier % 2 = 1 ∧
    build DeviceType.Block stOddMultiplier resolveOnlyBarZero =
      Except.error (VirtioPciError.InvalidNotifyOffMultiplier 1) :=
  ⟨rfl, rfl, rfl, c4_odd_multiplier_after_common DeviceType.Block stOddMultiplier
    resolveOnlyBarZero { bar := 0, offset := 0, length := 64 }
    { base := 4096, size := 4096 } rfl rfl rfl⟩

/-- Counterexample to claim C5: in `capsThree` the notify capability is
present (its slot is recorded), yet `VirtioPci::new` fails with
`MissingNotifyConfig` because the notify BAR does not resolve — so
`MissingNotifyConfig` is not equivalent to absence of the capability. -/
theorem c5_counterexample :
    (scan capsThree).notify_cfg.isSome = true ∧
    VirtioPci.new DeviceType.Block capsThree resolveOnlyBarZero =
      Except.error VirtioPciError.MissingNotifyConfig :=
  ⟨by decide, rfl⟩

/-- Claim C5 as amended: exact characterization of the three missing-
capability errors and of success with an empty device-config slot.
`MissingCommonConfig` does occur iff the common capability is absent; but
`MissingNotifyConfig` (resp. `MissingIsrConfig`) occurs iff, all earlier
checks passing, the notify (resp. isr) capability is absent or its BAR
unresolvable; and success with `config_space = none` requires all earlier
checks to pass, not merely absence of the device capability. -/
theorem c5_missing_errors_iff (t : DeviceType) (s : ScanState) (r : Nat → Option Bar) :
    (build t s r = Except.error VirtioPciError.MissingCommonConfig ↔
      s.common_cfg = none) ∧
    (build t s r = Except.error VirtioPciError.MissingNotifyConfig ↔
      ((∃ c cb, s.common_cfg = some c ∧ r c.bar = some cb) ∧
        s.notify_off_multiplier % 2 = 0 ∧
        (s.notify_cfg = none ∨ ∃ n, s.notify_cfg = some n ∧ r n.bar = none))) ∧
    (build t s r = Except.error VirtioPciError.MissingIsrConfig ↔
      ((∃ c cb, s.common_cfg = some c ∧ r c.bar = some cb) ∧
        s.notify_off_multiplier % 2 = 0 ∧
        (∃ n nb, s.notify_cfg = some n ∧ r n.bar = some nb) ∧
        (s.isr_cfg = none ∨ ∃ i, s.isr_cfg = some i ∧ r i.bar = none))) ∧
    ((∃ v, build t s r = Except.ok v ∧ v.config_space = none) ↔
      ((∃ c cb, s.common_cfg = some c ∧ r c.bar = some cb) ∧
        s.notify_off_multiplier % 2 = 0 ∧
        (∃ n nb, s.notify_cfg = some n ∧ r n.bar = some nb) ∧
        (∃ i ib, s.isr_cfg = some i ∧ r i.bar = some ib) ∧
        s.device_cfg = none)) := by
  rcases hc : s.common_cfg with _ | c
  · simp [build, hc]
  · rcases hrc : r c.bar with _ | cb
    · simp [build, hc, hrc]
    · by_cases hm : s.notify_off_multiplier % 2 = 0
      · rcases hn : s.notify_cfg with _ | n
        · simp [build, hc, hrc, hm, hn]
        · rcases hrn : r n.bar with _ | nb
          · simp [build, hc, hrc, hm, hn, hrn]
          · rcases hi : s.isr_cfg with _ | i
            · simp [build, hc, hrc, hm, hn, hrn, hi]
            · rcases hri : r i.bar with _ | ib
              · simp [build, hc, hrc, hm, hn, hrn, hi, hri]
              · rcases hd : s.device_cfg with _ | d
                · simp [build, hc, hrc, hm, hn, hrn, hi, hri, hd]
                · rcases hrd : r d.bar with _ | db
                  · simp [build, hc, hrc, hm, hn, hrn, hi, hri, hd, hrd]
                  · simp [build, hc, hrc, hm, hn, hrn, hi, hri, hd, hrd]
      · simp [build, hc, hrc, hm]

/-- Membership of an address in a BAR region. -/
def inBar (b : Bar) (a : Nat) : Prop := b.base ≤ a ∧ a < b.base + b.size

instance (b : Bar) (a : Nat) : Decidable (inBar b a) := by
  unfold inBar
  infer_instance

/-- Modelled from the spec: the body of `Transport::notify` in the source
is a `todo` placeholder, so the operation is taken from section 4.3 of the
spec — compute the notification address as
`notify_region.base + queue_notify_off(queue) * notify_multiplier` (with
`queue_notify_off` the per-queue offset from common config, abstracted as a
parameter) and write the queue index there. -/
def notifyAddr (t : VirtioPci) (queueNotifyOff : Nat → Nat) (queue : Nat) : Nat :=
  t.notify_region.base + queueNotifyOff queue * t.notify_off_multiplier

/-- Modelled from the spec: the write trace of one `notify(queue)` call —
a single write of the queue index at the notification address. -/
def notifyWrites (t : VirtioPci) (queueNotifyOff : Nat → Nat) (queue : Nat) :
    List (Nat × Nat) :=
  [(notifyAddr t queueNotifyOff queue, queue)]

/-- Apply a list of (address, value) writes to a memory, last write wins. -/
def applyWrites (mem : Nat → Nat) (ws : List (Nat × Nat)) : Nat → Nat :=
  ws.foldl (fun m w a => if a = w.1 then w.2 else m a) mem

/-- Claim C9: `notify(queue)` performs exactly one write — of the queue
index, at `notify_region.base + queue_notify_off(queue) * multiplier` —
and, provided the notification address does not fall inside the common or
isr regions (the regions are distinct on conforming hardware), the memory
of those two regions is untouched, as is every other address but the
notification address. -/
theorem c9_notify_single_write (t : VirtioPci) (queueNotifyOff : Nat → Nat)
    (queue : Nat) (mem : Nat → Nat)
    (hc : ¬ inBar t.common_cfg (notifyAddr t queueNotifyOff queue))
    (hi : ¬ inBar t.isr_status (notifyAddr t queueNotifyOff queue)) :
    (notifyWrites t queueNotifyOff queue).length = 1 ∧
    notifyWrites t queueNotifyOff queue =
      [(t.notify_region.base + queueNotifyOff queue * t.notify_off_multiplier, queue)] ∧
    applyWrites mem (notifyWrites t queueNotifyOff queue)
      (notifyAddr t queueNotifyOff queue) = queue ∧
    (∀ a, a ≠ notifyAddr t queueNotifyOff queue →
      applyWrites mem (notifyWrites t queueNotifyOff queue) a = mem a) ∧
    (∀ a, inBar t.common_cfg a ∨ inBar t.isr_status a →
      applyWrites mem (notifyWrites t queueNotifyOff queue) a = mem a) := by
  refine ⟨rfl, rfl, by simp [applyWrites, notifyWrites], ?_, ?_⟩
  · intro a ha
    simp [applyWrites, notifyWrites, ha]
  · intro a ha
    have hne : a ≠ notifyAddr t queueNotifyOff queue := by
      intro heq
      cases ha with
      | inl h => exact hc (heq ▸ h)
      | inr h => exact hi (heq ▸ h)
    simp [applyWrites, notifyWrites, hne]

/-- A concrete transport with disjoint common [0,4), isr [4,8) and notify
[8,12) regions and multiplier 0. -/
def transportDisjoint : VirtioPci :=
  { device_type := DeviceType.Block, common_cfg := { base := 0, size := 4 },
    notify_region := { base := 8, size := 4 }, notify_off_multiplier := 0,
    isr_status := { base := 4, size := 4 }, config_space := none }

/-- Witness for C9 at the concrete transport: the notification address 8
lies in neither the common nor the isr region, and a notify of queue 0
writes exactly once. -/
theorem c9_witness :
    ¬ inBar transportDisjoint.common_cfg (notifyAddr transportDisjoint (fun q => q) 0) ∧
    ¬ inBar transportDisjoint.isr_status (notifyAddr transportDisjoint (fun q => q) 0) ∧
    ((notifyWrites transportDisjoint (fun q => q) 0).length = 1 ∧
      notifyWrites transportDisjoint (fun q => q) 0 = [(8, 0)] ∧
      applyWrites (fun a => 7) (notifyWrites transportDisjoint (fun q => q) 0)
        (notifyAddr transportDisjoint (fun q => q) 0) = 0 ∧
      (∀ a, a ≠ notifyAddr transportDisjoint (fun q => q) 0 →
        applyWrites (fun a => 7) (notifyWrites transportDisjoint (fun q => q) 0) a =
          (fun a => 7) a) ∧
      (∀ a, inBar transportDisjoint.common_cfg a ∨ inBar transportDisjoint.isr_status a →
        applyWrites (fun a => 7) (notifyWrites transportDisjoint (fun q => q) 0) a =
          (fun a => 7) a)) :=
  ⟨by decide, by decide,
    c9_notify_single_write transportDisjoint (fun q => q) 0 (fun a => 7)
      (by decide) (by decide)⟩
